import Mathlib

/-!
Verification of the Ocene service (`src/api.py`): a CRUD HTTP API over two
Postgres tables, `ocene` (ratings) and `pritozbe` (complaints).

The embedding models each handler method of the four `flask_restx` resource
classes (`Narocnik`, `ListNarocnikov`, `Pritozba`, `ListPritozb`) as a pure
Lean function.  A database table is a list of rows in physical order; a row
stores its text columns in the fixed-width padded form produced by the
`CHAR(n)` column types (`ime CHAR(25)`, `ocena CHAR(300)`, `ime_vir CHAR(25)`,
`ime_cilj CHAR(25)`, `pritozba CHAR(300)`).  The external subscriber lookup
service (`GET {UPORABNIKI_IP}narocniki/{id}`) is modelled as a function
`Int → Option String`: `none` for a non-200 response, `some ime` for a 200
response whose JSON body has `"ime": ime`.  Python's `str.strip()` is
modelled on the character list of the string.
-/

set_option autoImplicit false

namespace Ocene

/-- The characters removed by Python's `str.strip()` with no argument
(ASCII whitespace; the padding added by `CHAR(n)` columns is `' '`). -/
def pySpace (c : Char) : Bool :=
  c == ' ' || c == '\t' || c == '\n' || c == '\r' || c == '\x0b' || c == '\x0c'

/-- Drop leading whitespace from a character list (`str.lstrip()`). -/
def lstripL (l : List Char) : List Char := l.dropWhile pySpace

/-- Drop trailing whitespace from a character list (`str.rstrip()`). -/
def rstripL (l : List Char) : List Char := (l.reverse.dropWhile pySpace).reverse

/-- `str.strip()` on a character list: drop whitespace at both ends. -/
def stripL (l : List Char) : List Char := lstripL (rstripL l)

/-- Python's `s.strip()` as used on every read path of `api.py`. -/
def strip (s : String) : String := ⟨stripL s.data⟩

/-- Storage as a `CHAR(n)` column: pad with spaces on the right up to
width `n` (the value the database hands back to `fetchall`). -/
def padTo (n : Nat) (s : String) : String :=
  ⟨s.data ++ List.replicate (n - s.data.length) ' '⟩

/-- A stored row of the `ocene` table:
`id INT NOT NULL, ime CHAR(25), ocena CHAR(300)` (api.py:186-191). -/
structure OceneRow where
  id : Int
  ime : String
  ocena : String
deriving Repr, DecidableEq

/-- A stored row of the `pritozbe` table:
`id INT NOT NULL, ime_vir CHAR(25), ime_cilj CHAR(25), pritozba CHAR(300)`
(api.py:607-613). -/
structure PritozbaRow where
  id : Int
  ime_vir : String
  ime_cilj : String
  pritozba : String
deriving Repr, DecidableEq

/-- The marshalled rating object (`NarocnikModel`, api.py:163-167). -/
structure NarocnikModel where
  id : Int
  ime : String
  ocena : String
deriving Repr, DecidableEq

/-- The marshalled complaint object (`PritozbaModel`, api.py:449-454). -/
structure PritozbaModel where
  id : Int
  ime_vir : String
  ime_cilj : String
  pritozba : String
deriving Repr, DecidableEq

/-- Parsed request arguments of `ListNarocnikov.post` (api.py:333-341). -/
structure OceneArgs where
  id : Int
  ocena : String
  id_uporabnika : Int
deriving Repr, DecidableEq

/-- Parsed request arguments of `ListPritozb.post` (api.py:615-626). -/
structure PritozbaArgs where
  id : Int
  pritozba : String
  id_uporabnika_vir : Int
  id_uporabnika_cilj : Int
deriving Repr, DecidableEq

/-- The observable outcome of one handler call.
`notFound msg` is `abort(404)` / `abort(404, msg)`; `deleted code` is the
bare `return 204` of the delete handlers; `serverError` is an unhandled
Python exception propagating out of the handler (HTTP 500). -/
inductive Response where
  | ocena (m : NarocnikModel) (code : Nat)
  | ocene (ms : List NarocnikModel) (code : Nat)
  | pritozba (m : PritozbaModel) (code : Nat)
  | pritozbe (ms : List PritozbaModel) (code : Nat)
  | deleted (code : Nat)
  | notFound (msg : Option String)
  | serverError
deriving Repr, DecidableEq

/-- The subscriber lookup service: `none` models a non-200 status for
`GET {UPORABNIKI_IP}narocniki/{i}`, `some ime` a 200 reply `{"ime": ime}`. -/
abbrev Service := Int → Option String

/-- `Narocnik.get` (api.py:203-255): `SELECT * FROM ocene WHERE id = %s`,
`abort(404)` when `fetchall` is empty, otherwise marshal the first fetched
row with both text fields stripped and return it with code 200. -/
def Narocnik.get (ocene : List OceneRow) (id : Int) : Response :=
  match ocene.filter (fun r => r.id == id) with
  | [] => .notFound none
  | r :: _ => .ocena ⟨r.id, strip r.ime, strip r.ocena⟩ 200

/-- `Narocnik.delete` (api.py:260-310): `SELECT * FROM ocene`, collect the
first column of every row into `ids`; `abort(404)` when `id not in ids`,
otherwise `DELETE FROM ocene WHERE id = %s`, commit, and `return 204`. -/
def Narocnik.delete (ocene : List OceneRow) (id : Int) :
    Response × List OceneRow :=
  let ids := ocene.map (fun r => r.id)
  if id ∈ ids then
    (.deleted 204, ocene.filter (fun r => !(r.id == id)))
  else
    (.notFound none, ocene)

/-- `ListNarocnikov.get` (api.py:345-391): `SELECT * FROM ocene`, build the
insertion-ordered dict `ds` indexed `0, 1, ...` over the fetched rows, then
marshal each entry with both text fields stripped, code 200. -/
def ListNarocnikov.get (ocene : List OceneRow) : Response :=
  .ocene (ocene.enum.map fun p => ⟨p.2.id, strip p.2.ime, strip p.2.ocena⟩) 200

/-- `ListNarocnikov.post` (api.py:393-445): `GET {UPORABNIKI_IP}narocniki/
{id_uporabnika}`; on a non-200 status `abort(404)` before any SQL; otherwise
`INSERT INTO ocene` the id, the resolved name and the raw `ocena` text (the
`CHAR` columns pad them), commit, and return the model built from the raw
resolved name and `args["ocena"].strip()` with code 201. -/
def ListNarocnikov.post (svc : Service) (ocene : List OceneRow)
    (args : OceneArgs) : Response × List OceneRow :=
  match svc args.id_uporabnika with
  | none => (.notFound none, ocene)
  | some ime_uporabnika =>
      (.ocena ⟨args.id, ime_uporabnika, strip args.ocena⟩ 201,
       ocene ++ [⟨args.id, padTo 25 ime_uporabnika, padTo 300 args.ocena⟩])

/-- `Pritozba.get` (api.py:481-536): `SELECT * FROM pritozbe WHERE id = %s`,
`abort(404, "Pritozba ni bila najdena")` when empty, otherwise marshal the
first fetched row with all three text fields stripped, code 200. -/
def Pritozba.get (pritozbe : List PritozbaRow) (id : Int) : Response :=
  match pritozbe.filter (fun r => r.id == id) with
  | [] => .notFound (some "Pritozba ni bila najdena")
  | r :: _ =>
      .pritozba ⟨r.id, strip r.ime_vir, strip r.ime_cilj, strip r.pritozba⟩ 200

/-- `Pritozba.delete` (api.py:541-591): same shape as `Narocnik.delete` on
the `pritozbe` table. -/
def Pritozba.delete (pritozbe : List PritozbaRow) (id : Int) :
    Response × List PritozbaRow :=
  let ids := pritozbe.map (fun r => r.id)
  if id ∈ ids then
    (.deleted 204, pritozbe.filter (fun r => !(r.id == id)))
  else
    (.notFound none, pritozbe)

/-- `ListPritozb.get` (api.py:630-679): same shape as `ListNarocnikov.get`
with four columns. -/
def ListPritozb.get (pritozbe : List PritozbaRow) : Response :=
  .pritozbe
    (pritozbe.enum.map fun p =>
      ⟨p.2.id, strip p.2.ime_vir, strip p.2.ime_cilj, strip p.2.pritozba⟩) 200

/-- `ListPritozb.post` (api.py:684-756): look up the source subscriber
first; on a non-200 status `abort(404, f"Uporabnik z ID {id} ni bil
najden")` with the source id.  Then look up the target subscriber; on a
non-200 status the handler evaluates `args["id_uporabnika"]` (api.py:720),
a key that is NOT among this parser's arguments (`id`, `ime`, `pritozba`,
`id_uporabnika_vir`, `id_uporabnika_cilj`), so a `KeyError` is raised
before the `abort(404, ...)` on the next line is reached — modelled as
`serverError`, with no row written.  When both lookups succeed, `INSERT
INTO pritozbe` and commit, returning the model with code 201. -/
def ListPritozb.post (svc : Service) (pritozbe : List PritozbaRow)
    (args : PritozbaArgs) : Response × List PritozbaRow :=
  match svc args.id_uporabnika_vir with
  | none =>
      (.notFound (some ("Uporabnik z ID " ++ toString args.id_uporabnika_vir
          ++ " ni bil najden")), pritozbe)
  | some ime_uporabnika_vir =>
      match svc args.id_uporabnika_cilj with
      | none => (.serverError, pritozbe)
      | some ime_uporabnika_cilj =>
          (.pritozba ⟨args.id, ime_uporabnika_vir, ime_uporabnika_cilj,
              strip args.pritozba⟩ 201,
           pritozbe ++ [⟨args.id, padTo 25 ime_uporabnika_vir,
              padTo 25 ime_uporabnika_cilj, padTo 300 args.pritozba⟩])

/-- The persistent state: the two tables, in physical row order. -/
structure DBState where
  ocene : List OceneRow
  pritozbe : List PritozbaRow
deriving Repr, DecidableEq

/-- One HTTP request against the API surface (api.py:765-768). -/
inductive Request where
  | listOcene
  | postOcena (args : OceneArgs)
  | getOcena (id : Int)
  | deleteOcena (id : Int)
  | listPritozbe
  | postPritozba (args : PritozbaArgs)
  | getPritozba (id : Int)
  | deletePritozba (id : Int)
deriving Repr, DecidableEq

/-- Dispatch one request to its handler, threading the database state.
Only the two create handlers consult the subscriber lookup service. -/
def step (svc : Service) (s : DBState) : Request → Response × DBState
  | .listOcene => (ListNarocnikov.get s.ocene, s)
  | .postOcena args =>
      let (resp, t) := ListNarocnikov.post svc s.ocene args
      (resp, { s with ocene := t })
  | .getOcena id => (Narocnik.get s.ocene id, s)
  | .deleteOcena id =>
      let (resp, t) := Narocnik.delete s.ocene id
      (resp, { s with ocene := t })
  | .listPritozbe => (ListPritozb.get s.pritozbe, s)
  | .postPritozba args =>
      let (resp, t) := ListPritozb.post svc s.pritozbe args
      (resp, { s with pritozbe := t })
  | .getPritozba id => (Pritozba.get s.pritozbe id, s)
  | .deletePritozba id =>
      let (resp, t) := Pritozba.delete s.pritozbe id
      (resp, { s with pritozbe := t })

/-! ### Auxiliary lemmas about stripping and padding -/

theorem dropWhile_replicate_space_append (k : Nat) (l : List Char) :
    List.dropWhile pySpace (List.replicate k ' ' ++ l) = List.dropWhile pySpace l := by
  induction k with
  | zero => rfl
  | succ n ih => simp [List.replicate_succ, List.dropWhile_cons, pySpace, ih]

theorem rstripL_append_replicate (l : List Char) (k : Nat) :
    rstripL (l ++ List.replicate k ' ') = rstripL l := by
  unfold rstripL
  rw [List.reverse_append, List.reverse_replicate, dropWhile_replicate_space_append]

theorem stripL_append_replicate (l : List Char) (k : Nat) :
    stripL (l ++ List.replicate k ' ') = stripL l := by
  unfold stripL
  rw [rstripL_append_replicate]

/-- Stripping undoes the padding a `CHAR(n)` column adds. -/
theorem strip_padTo (n : Nat) (s : String) : strip (padTo n s) = strip s :=
  congrArg String.mk (stripL_append_replicate s.data _)

theorem enum_map_snd_comp {α β : Type} (l : List α) (f : α → β) :
    l.enum.map (fun p => f p.2) = l.map f := by
  rw [show (fun p : Nat × α => f p.2) = f ∘ Prod.snd from rfl, ← List.map_map,
    List.enum_map_snd]

/-- When `r` is the unique element of `l` satisfying `p`, it heads `l.filter p`. -/
theorem filter_head_of_unique {α : Type} (p : α → Bool) (l : List α) (r : α)
    (hr : r ∈ l) (hp : p r = true) (huniq : ∀ r' ∈ l, p r' = true → r' = r) :
    ∃ rest, l.filter p = r :: rest := by
  induction l with
  | nil => cases hr
  | cons a t ih =>
      by_cases ha : p a = true
      · have : a = r := huniq a (List.mem_cons_self a t) ha
        subst this
        exact ⟨t.filter p, by simp [List.filter_cons, ha]⟩
      · have hrt : r ∈ t := by
          rcases List.mem_cons.mp hr with h | h
          · exact absurd (h ▸ hp) ha
          · exact h
        rcases ih hrt (fun r' hr' hp' => huniq r' (List.mem_cons_of_mem a hr') hp')
          with ⟨rest, hres⟩
        exact ⟨rest, by simp [List.filter_cons, ha, hres]⟩


theorem filter_not_filter {α : Type} (p : α → Bool) (l : List α) :
    (l.filter (fun a => !(p a))).filter p = [] := by
  induction l with
  | nil => rfl
  | cons a t ih => by_cases h : p a <;> simp [List.filter_cons, h, ih]

set_option maxRecDepth 4000

/-- Claim C1: for every Rating create request, when the external subscriber
lookup (`GET {UPORABNIKI_IP}narocniki/{id_uporabnika}`) does not return
success, `ListNarocnikov.post` fails with `NotFound` (HTTP 404) before any
write: it returns `abort(404)` and the ocene table — hence its row count —
is unchanged; no insert and no commit occur on that path. -/
theorem C1_rating_create_failed_lookup_no_write (svc : Service)
    (t : List OceneRow) (args : OceneArgs)
    (h : svc args.id_uporabnika = none) :
    ListNarocnikov.post svc t args = (Response.notFound none, t) ∧
    ((ListNarocnikov.post svc t args).2).length = t.length := by
  simp [ListNarocnikov.post, h]

theorem C1_witness :
    ListNarocnikov.post (fun _ => none) [] ⟨1, "odlicno", 42⟩ =
      (Response.notFound none, ([] : List OceneRow)) ∧
    ((ListNarocnikov.post (fun _ => none) [] ⟨1, "odlicno", 42⟩).2).length =
      ([] : List OceneRow).length :=
  C1_rating_create_failed_lookup_no_write (fun _ => none) [] ⟨1, "odlicno", 42⟩ rfl

/-- Claim C2, evaluated at the failing input (source subscriber 1 resolves
to "Ana", target subscriber 2 does not resolve): the complaint create
handler does look up the source first and short-circuits, and it writes no
row, but it does NOT fail with `NotFound` naming the failing id — on the
target-failure path api.py:720 evaluates `args["id_uporabnika"]`, a key
that is not among this parser's arguments, raising a `KeyError` before the
`abort(404, ...)` on api.py:721 is reached, so the request ends as an
unhandled server error. -/
theorem C2_target_lookup_failure_crashes :
    ListPritozb.post (fun i => if i = 1 then some "Ana" else none) []
        ⟨7, "slaba storitev", 1, 2⟩ = (Response.serverError, []) ∧
    Response.serverError ≠ Response.notFound (some "Uporabnik z ID 2 ni bil najden") := by
  exact ⟨rfl, by decide⟩

/-- Claim C6: for every stored row, deleting it by id and then fetching
the same id returns `NotFound` — on both resources, for every table and
every id (whether or not the delete itself succeeded). -/
theorem C6_delete_then_get_notFound (oc : List OceneRow) (pr : List PritozbaRow) (id : Int) :
    Narocnik.get (Narocnik.delete oc id).2 id = Response.notFound none ∧
    Pritozba.get (Pritozba.delete pr id).2 id =
      Response.notFound (some "Pritozba ni bila najdena") := by
  constructor
  · unfold Narocnik.delete Narocnik.get
    by_cases h : id ∈ oc.map (fun r => r.id)
    · simp only [h, if_true]
      rw [filter_not_filter]
    · simp only [h, if_false]
      have : oc.filter (fun r => r.id == id) = [] := by
        rw [List.filter_eq_nil_iff]
        intro r hr
        simp only [beq_iff_eq]
        exact fun he => h (List.mem_map.mpr ⟨r, hr, he⟩)
      rw [this]
  · unfold Pritozba.delete Pritozba.get
    by_cases h : id ∈ pr.map (fun r => r.id)
    · simp only [h, if_true]
      rw [filter_not_filter]
    · simp only [h, if_false]
      have : pr.filter (fun r => r.id == id) = [] := by
        rw [List.filter_eq_nil_iff]
        intro r hr
        simp only [beq_iff_eq]
        exact fun he => h (List.mem_map.mpr ⟨r, hr, he⟩)
      rw [this]

/-- Claim C7: for every id not present in the table, `delete(id)` on
either resource returns `NotFound` and leaves the table completely
unchanged (same rows, hence same row count); no DELETE statement is issued
on that path. -/
theorem C7_delete_missing_id_frame (oc : List OceneRow) (pr : List PritozbaRow) (id : Int)
    (h1 : ∀ r ∈ oc, r.id ≠ id) (h2 : ∀ r ∈ pr, r.id ≠ id) :
    Narocnik.delete oc id = (Response.notFound none, oc) ∧
    Pritozba.delete pr id = (Response.notFound none, pr) := by
  constructor
  · have : id ∉ oc.map (fun r => r.id) := by
      simp only [List.mem_map, not_exists]
      rintro r ⟨hr, he⟩
      exact h1 r hr he
    simp [Narocnik.delete, this]
  · have : id ∉ pr.map (fun r => r.id) := by
      simp only [List.mem_map, not_exists]
      rintro r ⟨hr, he⟩
      exact h2 r hr he
    simp [Pritozba.delete, this]

theorem C7_witness :
    Narocnik.delete [⟨1, "Ana", "odlicno"⟩] 2 =
      (Response.notFound none, [⟨1, "Ana", "odlicno"⟩]) ∧
    Pritozba.delete [] 2 = (Response.notFound none, ([] : List PritozbaRow)) :=
  C7_delete_missing_id_frame [⟨1, "Ana", "odlicno"⟩] [] 2 (by decide) (by decide)

/-- Claim C8: `list()` on either collection returns every stored row
exactly once — the output is the elementwise image of the stored table in
storage order — with each text field trimmed of its fixed-width padding.
Together with C1/C5 (create appends exactly the new row) and C3/C7 (delete
removes exactly the rows with the deleted id) this makes the returned
collection the set of previously-created, not-yet-deleted rows. -/
theorem C8_list_returns_every_stored_row (oc : List OceneRow) (pr : List PritozbaRow) :
    ListNarocnikov.get oc =
      Response.ocene (oc.map fun r => ⟨r.id, strip r.ime, strip r.ocena⟩) 200 ∧
    ListPritozb.get pr =
      Response.pritozbe
        (pr.map fun r => ⟨r.id, strip r.ime_vir, strip r.ime_cilj, strip r.pritozba⟩) 200 := by
  constructor
  · unfold ListNarocnikov.get
    rw [enum_map_snd_comp oc (fun r => (⟨r.id, strip r.ime, strip r.ocena⟩ : NarocnikModel))]
  · unfold ListPritozb.get
    rw [enum_map_snd_comp pr
      (fun r => (⟨r.id, strip r.ime_vir, strip r.ime_cilj, strip r.pritozba⟩ : PritozbaModel))]

/-- Claim C9: the subscriber lookup service is consulted only by the
create handlers: `get(id)` and `delete(id)` on both resources produce the
same response and the same database state under any two services, so their
results depend only on the stored table contents. -/
theorem C9_get_delete_ignore_service (svc1 svc2 : Service) (s : DBState) (id : Int) :
    step svc1 s (.getOcena id) = step svc2 s (.getOcena id) ∧
    step svc1 s (.deleteOcena id) = step svc2 s (.deleteOcena id) ∧
    step svc1 s (.getPritozba id) = step svc2 s (.getPritozba id) ∧
    step svc1 s (.deletePritozba id) = step svc2 s (.deletePritozba id) :=
  ⟨rfl, rfl, rfl, rfl⟩

/-- Claim C3: for every id, `delete(id)` on either resource fails with
`NotFound` (HTTP 404) when no row matches id — the absence check being the
full-table scan of ids performed before the delete (api.py:275-293,
556-574) — and when a row matches it deletes the matching rows, commits,
and returns HTTP 204 with no body. -/
theorem C3_delete_contract (oc : List OceneRow) (pr : List PritozbaRow) (id : Int) :
    ((∀ r ∈ oc, r.id ≠ id) → Narocnik.delete oc id = (Response.notFound none, oc)) ∧
    ((∃ r ∈ oc, r.id = id) → Narocnik.delete oc id =
        (Response.deleted 204, oc.filter (fun r => !(r.id == id)))) ∧
    ((∀ r ∈ pr, r.id ≠ id) → Pritozba.delete pr id = (Response.notFound none, pr)) ∧
    ((∃ r ∈ pr, r.id = id) → Pritozba.delete pr id =
        (Response.deleted 204, pr.filter (fun r => !(r.id == id)))) := by
  refine ⟨fun h => ?_, fun h => ?_, fun h => ?_, fun h => ?_⟩
  · have hm : id ∉ oc.map (fun r => r.id) := by
      simp only [List.mem_map, not_exists]
      rintro r ⟨hr, he⟩
      exact h r hr he
    simp [Narocnik.delete, hm]
  · have hm : id ∈ oc.map (fun r => r.id) := by
      rcases h with ⟨r, hr, he⟩
      exact List.mem_map.mpr ⟨r, hr, he⟩
    simp [Narocnik.delete, hm]
  · have hm : id ∉ pr.map (fun r => r.id) := by
      simp only [List.mem_map, not_exists]
      rintro r ⟨hr, he⟩
      exact h r hr he
    simp [Pritozba.delete, hm]
  · have hm : id ∈ pr.map (fun r => r.id) := by
      rcases h with ⟨r, hr, he⟩
      exact List.mem_map.mpr ⟨r, hr, he⟩
    simp [Pritozba.delete, hm]

theorem C3_witness :
    Narocnik.delete [⟨1, "Ana", "odlicno"⟩] 2 =
      (Response.notFound none, [⟨1, "Ana", "odlicno"⟩]) ∧
    Narocnik.delete [⟨1, "Ana", "odlicno"⟩] 1 =
      (Response.deleted 204,
        List.filter (fun r => !(r.id == 1)) [⟨1, "Ana", "odlicno"⟩]) ∧
    Pritozba.delete [⟨3, "Ana", "Bor", "slabo"⟩] 2 =
      (Response.notFound none, [⟨3, "Ana", "Bor", "slabo"⟩]) ∧
    Pritozba.delete [⟨3, "Ana", "Bor", "slabo"⟩] 3 =
      (Response.deleted 204,
        List.filter (fun r => !(r.id == 3)) [⟨3, "Ana", "Bor", "slabo"⟩]) :=
  ⟨(C3_delete_contract [⟨1, "Ana", "odlicno"⟩] [⟨3, "Ana", "Bor", "slabo"⟩] 2).1 (by decide),
   (C3_delete_contract [⟨1, "Ana", "odlicno"⟩] [⟨3, "Ana", "Bor", "slabo"⟩] 1).2.1 (by decide),
   (C3_delete_contract [⟨1, "Ana", "odlicno"⟩] [⟨3, "Ana", "Bor", "slabo"⟩] 2).2.2.1 (by decide),
   (C3_delete_contract [⟨1, "Ana", "odlicno"⟩] [⟨3, "Ana", "Bor", "slabo"⟩] 3).2.2.2 (by decide)⟩

/-- Claim C4: for every id, `get(id)` on either resource fails with
`NotFound` (HTTP 404) when no row matches id; otherwise, when `r` is the
single matching row, it returns `r` with HTTP 200 and every text field
trimmed of padding. -/
theorem C4_get_contract (oc : List OceneRow) (pr : List PritozbaRow) (id : Int) :
    ((∀ r ∈ oc, r.id ≠ id) → Narocnik.get oc id = Response.notFound none) ∧
    (∀ r ∈ oc, r.id = id → (∀ r' ∈ oc, r'.id = id → r' = r) →
        Narocnik.get oc id = Response.ocena ⟨r.id, strip r.ime, strip r.ocena⟩ 200) ∧
    ((∀ r ∈ pr, r.id ≠ id) →
        Pritozba.get pr id = Response.notFound (some "Pritozba ni bila najdena")) ∧
    (∀ r ∈ pr, r.id = id → (∀ r' ∈ pr, r'.id = id → r' = r) →
        Pritozba.get pr id =
          Response.pritozba ⟨r.id, strip r.ime_vir, strip r.ime_cilj, strip r.pritozba⟩ 200) := by
  refine ⟨fun h => ?_, fun r hr he huniq => ?_, fun h => ?_, fun r hr he huniq => ?_⟩
  · have : oc.filter (fun r => r.id == id) = [] := by
      rw [List.filter_eq_nil_iff]
      intro r hr
      simp only [beq_iff_eq]
      exact h r hr
    unfold Narocnik.get
    rw [this]
  · rcases filter_head_of_unique (fun r => r.id == id) oc r hr
        (by simp [he]) (fun r' hr' hp' => huniq r' hr' (by simpa using hp')) with ⟨rest, hres⟩
    unfold Narocnik.get
    rw [hres]
  · have : pr.filter (fun r => r.id == id) = [] := by
      rw [List.filter_eq_nil_iff]
      intro r hr
      simp only [beq_iff_eq]
      exact h r hr
    unfold Pritozba.get
    rw [this]
  · rcases filter_head_of_unique (fun r => r.id == id) pr r hr
        (by simp [he]) (fun r' hr' hp' => huniq r' hr' (by simpa using hp')) with ⟨rest, hres⟩
    unfold Pritozba.get
    rw [hres]

theorem C4_witness :
    Narocnik.get [⟨1, "Ana", "odlicno"⟩] 2 = Response.notFound none ∧
    Narocnik.get [⟨1, "Ana", "odlicno"⟩] 1 =
      Response.ocena ⟨1, strip "Ana", strip "odlicno"⟩ 200 ∧
    Pritozba.get [⟨3, "Ana", "Bor", "slabo"⟩] 2 =
      Response.notFound (some "Pritozba ni bila najdena") ∧
    Pritozba.get [⟨3, "Ana", "Bor", "slabo"⟩] 3 =
      Response.pritozba ⟨3, strip "Ana", strip "Bor", strip "slabo"⟩ 200 :=
  ⟨(C4_get_contract [⟨1, "Ana", "odlicno"⟩] [⟨3, "Ana", "Bor", "slabo"⟩] 2).1 (by decide),
   (C4_get_contract [⟨1, "Ana", "odlicno"⟩] [⟨3, "Ana", "Bor", "slabo"⟩] 1).2.1
     ⟨1, "Ana", "odlicno"⟩ (by decide) rfl (by decide),
   (C4_get_contract [⟨1, "Ana", "odlicno"⟩] [⟨3, "Ana", "Bor", "slabo"⟩] 2).2.2.1 (by decide),
   (C4_get_contract [⟨1, "Ana", "odlicno"⟩] [⟨3, "Ana", "Bor", "slabo"⟩] 3).2.2.2
     ⟨3, "Ana", "Bor", "slabo"⟩ (by decide) rfl (by decide)⟩

/-- Claim C10: when stored rows share the same id (no primary-key
constraint exists), a successful `delete(id)` removes every row with that
id — afterwards no row with that id remains — while `get(id)` returns the
fields of only the first matching row in fetch order. -/
theorem C10_duplicate_ids (oc : List OceneRow) (id : Int) (r : OceneRow) (rest : List OceneRow)
    (hdup : oc.filter (fun x => x.id == id) = r :: rest) :
    Narocnik.get oc id = Response.ocena ⟨r.id, strip r.ime, strip r.ocena⟩ 200 ∧
    (Narocnik.delete oc id).1 = Response.deleted 204 ∧
    ∀ r' ∈ (Narocnik.delete oc id).2, r'.id ≠ id := by
  have hrmem : r ∈ oc.filter (fun x => x.id == id) := by
    rw [hdup]; exact List.mem_cons_self r rest
  have hr : r ∈ oc := (List.mem_filter.mp hrmem).1
  have hrid : r.id = id := by
    have := (List.mem_filter.mp hrmem).2
    simpa using this
  have hm : id ∈ oc.map (fun x => x.id) := List.mem_map.mpr ⟨r, hr, hrid⟩
  refine ⟨?_, ?_, ?_⟩
  · unfold Narocnik.get
    rw [hdup]
  · simp [Narocnik.delete, hm]
  · intro r' hr'
    have : r' ∈ oc.filter (fun x => !(x.id == id)) := by
      simpa [Narocnik.delete, hm] using hr'
    have := (List.mem_filter.mp this).2
    simpa using this

theorem C10_witness :
    Narocnik.get [⟨1, "Ana", "odlicno"⟩, ⟨1, "Bor", "slabo"⟩] 1 =
      Response.ocena ⟨1, strip "Ana", strip "odlicno"⟩ 200 ∧
    (Narocnik.delete [⟨1, "Ana", "odlicno"⟩, ⟨1, "Bor", "slabo"⟩] 1).1 =
      Response.deleted 204 :=
  ⟨(C10_duplicate_ids [⟨1, "Ana", "odlicno"⟩, ⟨1, "Bor", "slabo"⟩] 1
      ⟨1, "Ana", "odlicno"⟩ [⟨1, "Bor", "slabo"⟩] (by decide)).1,
   (C10_duplicate_ids [⟨1, "Ana", "odlicno"⟩, ⟨1, "Bor", "slabo"⟩] 1
      ⟨1, "Ana", "odlicno"⟩ [⟨1, "Bor", "slabo"⟩] (by decide)).2.1⟩

/-- Claim C5 as stated is false: the text fields are NOT trimmed
identically on the create-response path and on the get path.  The create
response returns the resolved subscriber name raw (api.py:429-431 builds
the model from `ime_uporabnika`, not `ime_uporabnika.strip()`), while the
get path strips it; when subscriber 42 resolves to the name "Ana " (with a
trailing space), creating rating 1 answers with name "Ana " but fetching
rating 1 answers with name "Ana". -/
theorem C5_counterexample :
    (ListNarocnikov.post (fun i => if i = 42 then some "Ana " else none) []
        ⟨1, "great", 42⟩).1 = Response.ocena ⟨1, "Ana ", "great"⟩ 201 ∧
    Narocnik.get (ListNarocnikov.post (fun i => if i = 42 then some "Ana " else none) []
        ⟨1, "great", 42⟩).2 1 = Response.ocena ⟨1, "Ana", "great"⟩ 200 ∧
    (⟨1, "Ana ", "great"⟩ : NarocnikModel) ≠ ⟨1, "Ana", "great"⟩ := by
  refine ⟨by decide, by decide, by decide⟩

/-- Claim C5 amended: for every valid id not already present in the
table, creating a Rating or Complaint and then fetching it by the same id
returns the same field values, provided each subscriber name resolved at
create time carries no leading or trailing whitespace (`strip ime = ime`).
The rating/complaint text field is trimmed identically on both paths
unconditionally; the name fields are returned raw by create and trimmed by
get, which is what the proviso compensates for. -/
theorem C5_roundtrip_trimmed_names (svc : Service)
    (t : List OceneRow) (args : OceneArgs) (ime : String)
    (hsvc : svc args.id_uporabnika = some ime) (hime : strip ime = ime)
    (hfresh : ∀ r ∈ t, r.id ≠ args.id)
    (pt : List PritozbaRow) (pargs : PritozbaArgs) (ime_vir ime_cilj : String)
    (hvir : svc pargs.id_uporabnika_vir = some ime_vir)
    (hcilj : svc pargs.id_uporabnika_cilj = some ime_cilj)
    (hv : strip ime_vir = ime_vir) (hc : strip ime_cilj = ime_cilj)
    (hpfresh : ∀ r ∈ pt, r.id ≠ pargs.id) :
    ((ListNarocnikov.post svc t args).1 =
        Response.ocena ⟨args.id, ime, strip args.ocena⟩ 201 ∧
      Narocnik.get (ListNarocnikov.post svc t args).2 args.id =
        Response.ocena ⟨args.id, ime, strip args.ocena⟩ 200) ∧
    ((ListPritozb.post svc pt pargs).1 =
        Response.pritozba ⟨pargs.id, ime_vir, ime_cilj, strip pargs.pritozba⟩ 201 ∧
      Pritozba.get (ListPritozb.post svc pt pargs).2 pargs.id =
        Response.pritozba ⟨pargs.id, ime_vir, ime_cilj, strip pargs.pritozba⟩ 200) := by
  have hfilt : ∀ (l : List OceneRow) (i : Int), (∀ r ∈ l, r.id ≠ i) →
      l.filter (fun r => r.id == i) = [] := by
    intro l i h
    rw [List.filter_eq_nil_iff]
    intro r hr
    simp only [beq_iff_eq]
    exact h r hr
  have hpfilt : ∀ (l : List PritozbaRow) (i : Int), (∀ r ∈ l, r.id ≠ i) →
      l.filter (fun r => r.id == i) = [] := by
    intro l i h
    rw [List.filter_eq_nil_iff]
    intro r hr
    simp only [beq_iff_eq]
    exact h r hr
  constructor
  · constructor
    · simp [ListNarocnikov.post, hsvc]
    · unfold ListNarocnikov.post
      rw [hsvc]
      unfold Narocnik.get
      rw [List.filter_append, hfilt t args.id hfresh]
      simp only [List.nil_append, List.filter_cons, beq_self_eq_true, if_true,
        List.filter_nil, cond_true]
      rw [strip_padTo, strip_padTo, hime]
  · constructor
    · simp [ListPritozb.post, hvir, hcilj]
    · unfold ListPritozb.post
      rw [hvir, hcilj]
      unfold Pritozba.get
      rw [List.filter_append, hpfilt pt pargs.id hpfresh]
      simp only [List.nil_append, List.filter_cons, beq_self_eq_true, if_true,
        List.filter_nil, cond_true]
      rw [strip_padTo, strip_padTo, strip_padTo, hv, hc]

theorem C5_witness :
    (ListNarocnikov.post (fun i => if i = 1 then some "Ana" else some "Bor") []
        ⟨10, "odlicno", 1⟩).1 = Response.ocena ⟨10, "Ana", strip "odlicno"⟩ 201 ∧
    Narocnik.get (ListNarocnikov.post (fun i => if i = 1 then some "Ana" else some "Bor") []
        ⟨10, "odlicno", 1⟩).2 10 = Response.ocena ⟨10, "Ana", strip "odlicno"⟩ 200 ∧
    (ListPritozb.post (fun i => if i = 1 then some "Ana" else some "Bor") []
        ⟨11, "slabo", 1, 2⟩).1 = Response.pritozba ⟨11, "Ana", "Bor", strip "slabo"⟩ 201 ∧
    Pritozba.get (ListPritozb.post (fun i => if i = 1 then some "Ana" else some "Bor") []
        ⟨11, "slabo", 1, 2⟩).2 11 = Response.pritozba ⟨11, "Ana", "Bor", strip "slabo"⟩ 200 := by
  have h := C5_roundtrip_trimmed_names (fun i => if i = 1 then some "Ana" else some "Bor")
    [] ⟨10, "odlicno", 1⟩ "Ana" (by decide) (by decide) (by decide)
    [] ⟨11, "slabo", 1, 2⟩ "Ana" "Bor" (by decide) (by decide) (by decide) (by decide) (by decide)
  exact ⟨h.1.1, h.1.2, h.2.1, h.2.2⟩

end Ocene
